import Mathlib

/-!
Formal model of the priority scheduler and preemption engine of the
mule-ai/proxy repository (pkg/proxy, pkg/openai).

Go source is shallowly embedded: channels become FIFO lists with an
explicit capacity (Go `make(chan *workRequest, 100)`), a non-blocking
channel receive becomes popping the head of a non-empty list, a
non-blocking send succeeds exactly when the buffer holds fewer items
than its capacity, and side effects (HTTP writes to a response writer,
closing a `done` channel) are returned as explicit data.  Object
identities (response writers, done channels) are modelled as natural
numbers.  Go `int` / `int64` values are modelled as `Int`.
-/

namespace Proxy

/-- A cloned-or-original HTTP request; only the content the proxy core
touches is modelled (method, URL path, buffered body). -/
structure HttpRequest where
  method : String
  path : String
  body : String
  deriving Repr, DecidableEq

/-- Model of Go's `req.Request.Clone(ctx)`: a copy of the request carrying
the same method, path and (re-buffered) body. -/
def cloneRequest (r : HttpRequest) : HttpRequest :=
  { method := r.method, path := r.path, body := r.body }

/-- Model of `workRequest` (mock_openai.go): the per-request envelope.
`responseWriter` and `done` are identities of the shared response writer
and one-shot completion channel.  The per-attempt cancellation scope
(`PreemptCtx` / `PreemptCancel`) is created inside `processRequest` and is
modelled there as an explicit `cancelled` flag, not stored here. -/
structure Envelope where
  request : HttpRequest
  responseWriter : Nat
  done : Nat
  startTime : Nat
  model : String
  inputTokens : Int
  tools : List String
  retryCount : Nat
  preempted : Bool
  deriving Repr, DecidableEq

/-- Model of `PriorityQueue` (mock_openai.go): the `Requests` channel is a
bounded FIFO list (head = next to be received) with capacity fixed at
channel creation. -/
structure PriorityQueue where
  port : Int
  priority : Int
  preemptive : Bool
  capacity : Nat
  requests : List Envelope
  deriving Repr, DecidableEq

/-- Model of `QueueManager` (mock_openai.go): the queue set and the
`stopping` shutdown flag. -/
structure QueueManager where
  queues : List PriorityQueue
  stopping : Bool
  deriving Repr, DecidableEq

/-- Model of `config.Endpoint`. -/
structure Endpoint where
  port : Int
  priority : Int
  preemptive : Bool
  deriving Repr, DecidableEq

/-- Model of `NewQueueManager` (mock_openai.go:110): one queue per endpoint,
with `Requests: make(chan *workRequest, 100)` giving every queue capacity
100 and an empty buffer; `stopping` starts false. -/
def NewQueueManager (endpoints : List Endpoint) : QueueManager :=
  { queues := endpoints.map fun ep =>
      { port := ep.port
        priority := ep.priority
        preemptive := ep.preemptive
        capacity := 100
        requests := [] }
    stopping := false }

/-- Model of `FindQueueByPort` (mock_openai.go:141): first queue whose port
matches, or none. -/
def FindQueueByPort (qm : QueueManager) (port : Int) : Option PriorityQueue :=
  qm.queues.find? fun q => q.port == port

/-- Model of `ShouldPreempt` (mock_openai.go:202): false during shutdown;
otherwise true iff some queue has strictly smaller priority number, is
preemptive, and has a non-empty `Requests` buffer (`len(q.Requests) > 0`). -/
def ShouldPreempt (qm : QueueManager) (currentPriority : Int) : Bool :=
  if qm.stopping then
    false
  else
    qm.queues.any fun q =>
      decide (q.priority < currentPriority) && q.preemptive &&
        decide (0 < q.requests.length)

/-- Model of the shutdown transition in `StartScheduler` (mock_openai.go:167):
on context cancellation the scheduler sets `stopping = true` and stops
dispatching. -/
def setStopping (qm : QueueManager) : QueueManager :=
  { qm with stopping := true }

/-- Model of `sortByPriority` (mock_openai.go:154): `StartScheduler` sorts the
queue slice into ascending priority order once before the scheduling loop.
`sort.Slice` is an unspecified comparison sort; since the spec requires ranks
to be unique across queues, any correct sort yields the same list, and a
stable insertion sort is used as the model. -/
def sortByPriority (qs : List PriorityQueue) : List PriorityQueue :=
  List.insertionSort (fun a b => a.priority ≤ b.priority) qs

/-- Model of `processNextRequest` (mock_openai.go:179): walk the (sorted)
queue slice in order; the first queue whose channel yields a request on a
non-blocking receive has its head removed and dispatched together with that
queue; later queues are untouched.  Returns the dispatched
(envelope, queue-after-removal) pair, if any, and the updated queue list. -/
def processNextRequest : List PriorityQueue → Option (Envelope × PriorityQueue) × List PriorityQueue
  | [] => (none, [])
  | q :: rest =>
    match q.requests with
    | e :: es => (some (e, { q with requests := es }), { q with requests := es } :: rest)
    | [] => ((processNextRequest rest).1, q :: (processNextRequest rest).2)

/-- All pending envelopes across a queue list, in scan order: the
concatenation of every queue's FIFO buffer. -/
def allPending (qs : List PriorityQueue) : List Envelope :=
  qs.foldr (fun q acc => q.requests ++ acc) []

/-- The sequence of envelopes dispatched by `n` consecutive scheduler
iterations (`StartScheduler`'s loop with no new arrivals): each iteration
runs `processNextRequest` on the current queue state; iterations that find
nothing dispatch nothing. -/
def schedulerTrace : Nat → List PriorityQueue → List Envelope
  | 0, _ => []
  | n + 1, qs =>
    match processNextRequest qs with
    | (some p, qs2) => p.1 :: schedulerTrace n qs2
    | (none, _) => []

/-- A status-and-body write to an identified response writer
(`WriteHeader` followed by `Write` in the Go source). -/
structure HttpWrite where
  writer : Nat
  status : Nat
  body : String
  deriving Repr, DecidableEq

/-- The overload body written on 429 (ingress) and 503 (failed requeue). -/
def overloadBody : String :=
  "\x7b\"error\":\"Service overloaded, please try again later\"\x7d"

/-- Model of the marking step of the Preemption Monitor (mock_openai.go:242):
`req.Preempted = true; req.RetryCount++` on the envelope being preempted. -/
def markPreempted (req : Envelope) : Envelope :=
  { req with preempted := true, retryCount := req.retryCount + 1 }

/-- Model of the retry-envelope construction (mock_openai.go:246): after
marking, a new `workRequest` sharing the response writer, done channel,
start time, model, token count, tools, and the incremented retry count and
preempted flag, but carrying a freshly cloned HTTP request
(`req.Request.Clone(context.Background())`).  The new cancellation scope is
installed when `processRequest` next runs the retry. -/
def buildRetryEnvelope (req : Envelope) : Envelope :=
  { request := cloneRequest (markPreempted req).request
    responseWriter := (markPreempted req).responseWriter
    done := (markPreempted req).done
    startTime := (markPreempted req).startTime
    model := (markPreempted req).model
    inputTokens := (markPreempted req).inputTokens
    tools := (markPreempted req).tools
    retryCount := (markPreempted req).retryCount
    preempted := (markPreempted req).preempted }

/-- Effects of one affirmative preemption decision of the Monitor. -/
structure MonitorStepResult where
  cancelCalled : Bool
  req : Envelope
  queue : PriorityQueue
  requeued : Option Envelope
  writes : List HttpWrite
  doneCloses : Nat
  deriving Repr, DecidableEq

/-- Model of the Preemption Monitor's branch after `ShouldPreempt` answered
true (mock_openai.go:236-273): the attempt's cancel is invoked; if the
current queue has priority number greater than 1 the envelope is marked and a
retry envelope is built and pushed by a non-blocking send (success iff the
buffer holds fewer than `capacity` items); on a full buffer a 503 with the
overload body is written to the envelope's response writer and its done
channel is closed.  At rank 1 nothing beyond the cancel happens. -/
def monitorPreemptStep (req : Envelope) (queue : PriorityQueue) : MonitorStepResult :=
  if 1 < queue.priority then
    if queue.requests.length < queue.capacity then
      { cancelCalled := true
        req := markPreempted req
        queue := { queue with requests := queue.requests ++ [buildRetryEnvelope req] }
        requeued := some (buildRetryEnvelope req)
        writes := []
        doneCloses := 0 }
    else
      { cancelCalled := true
        req := markPreempted req
        queue := queue
        requeued := none
        writes := [{ writer := req.responseWriter, status := 503, body := overloadBody }]
        doneCloses := 1 }
  else
    { cancelCalled := true
      req := req
      queue := queue
      requeued := none
      writes := []
      doneCloses := 0 }

/-- The envelope after n successive preempt-requeue cycles on the same
queue: each cycle replaces the envelope by its retry envelope. -/
def retryChain : Nat → Envelope → Envelope
  | 0, req => req
  | n + 1, req => retryChain n (buildRetryEnvelope req)

/-- Outcome of the Forwarder call as seen by `processRequest`
(mock_openai.go:284): either a response (status, headers, body) or a
transport error carrying a message. -/
inductive ForwardOutcome where
  | success (status : Nat) (headers : List (String × String)) (body : String)
  | failure (msg : String)
  deriving Repr, DecidableEq

/-- The 502 body `fmt.Sprintf` produces on a Forwarder error
(mock_openai.go:296). -/
def forwardErrorBody (msg : String) : String :=
  "\x7b\"error\":\"Error forwarding request: " ++ msg ++ "\"\x7d"

/-- Effects of the tail of one `processRequest` attempt. -/
structure ProcessorResult where
  writes : List HttpWrite
  headersCopied : List (String × String)
  doneCloses : Nat
  metricsRecorded : Bool
  deriving Repr, DecidableEq

/-- Model of `processRequest` after the Forwarder returns
(mock_openai.go:287-340): if the attempt's cancellation scope fired, return
immediately — no write, no header copy, no done close, no metrics (the
Monitor owns the requeue).  Otherwise a Forwarder error writes 502 with the
formatted body and closes done; a response has its headers copied, its
status and body written, metrics recorded, and done closed. -/
def processAttemptOutcome (req : Envelope) (cancelled : Bool)
    (result : ForwardOutcome) : ProcessorResult :=
  if cancelled then
    { writes := [], headersCopied := [], doneCloses := 0, metricsRecorded := false }
  else
    match result with
    | .failure msg =>
      { writes := [{ writer := req.responseWriter, status := 502, body := forwardErrorBody msg }]
        headersCopied := []
        doneCloses := 1
        metricsRecorded := false }
    | .success status headers body =>
      { writes := [{ writer := req.responseWriter, status := status, body := body }]
        headersCopied := headers
        doneCloses := 1
        metricsRecorded := true }

/-- Outcome of the ingress enqueue attempt in `ServeHTTP`
(part_002:107-118), carrying the resulting queue state.  `enqueued` means
the handler then blocks on the envelope's done channel before returning;
`rejected` means it replied immediately. -/
inductive IngressOutcome where
  | enqueued (queue : PriorityQueue)
  | rejected (queue : PriorityQueue) (write : HttpWrite)
  deriving Repr, DecidableEq

/-- Model of the non-blocking `select` send at ingress (part_002:107): the
send succeeds iff the buffer holds fewer than `capacity` items, appending
the envelope at the back; otherwise the handler writes 429 with the
overload body and returns, leaving the queue untouched. -/
def ingressEnqueue (queue : PriorityQueue) (req : Envelope) : IngressOutcome :=
  if queue.requests.length < queue.capacity then
    .enqueued { queue with requests := queue.requests ++ [req] }
  else
    .rejected queue { writer := req.responseWriter, status := 429, body := overloadBody }

/-- True exactly on the ingress outcome whose handler reaches the blocking
wait on the done channel (part_002:118). -/
def ingressWaitsForDone : IngressOutcome → Bool
  | .enqueued _ => true
  | .rejected _ _ => false

/-- JSON values as produced by Go's `json.Unmarshal` into
`map[string]interface` (part_001:78): strings, numbers, booleans, null,
arrays, and objects. -/
inductive Json where
  | str : String → Json
  | num : Int → Json
  | bool : Bool → Json
  | null : Json
  | arr : List Json → Json
  | obj : List (String × Json) → Json

/-- Indexing a decoded JSON object, Go `request[key]`: the value, or none
when the key is absent. -/
def jsonLookup (fields : List (String × Json)) (key : String) : Option Json :=
  (fields.find? fun kv => kv.1 == key).map fun kv => kv.2

/-- Go `len()` of a string: its UTF-8 byte count, not its character count. -/
def goLen (s : String) : Nat :=
  s.data.foldl (fun n c => n + c.utf8Size) 0

/-- Token contribution of one chat message (part_001:92-99): a message that
is an object whose `content` is a string contributes `len(content) / 4`;
anything else contributes nothing. -/
def messageTokens (msg : Json) : Nat :=
  match msg with
  | .obj mfields =>
    match jsonLookup mfields "content" with
    | some (.str c) => goLen c / 4
    | _ => 0
  | _ => 0

/-- Token contribution of one element of an array prompt or array input
(part_001:105-108, 115-118): string elements contribute `len / 4`. -/
def stringElemTokens (v : Json) : Nat :=
  match v with
  | .str s => goLen s / 4
  | _ => 0

/-- The `content` string of a chat message, when the message is an object
carrying one. -/
def msgContent (msg : Json) : Option String :=
  match msg with
  | .obj mfields =>
    match jsonLookup mfields "content" with
    | some (.str c) => some c
    | _ => none
  | _ => none

/-- The string carried by a JSON value, when it is one. -/
def strElem (v : Json) : Option String :=
  match v with
  | .str s => some s
  | _ => none

/-- Model of `ExtractRequestMetadata` (part_001:62-141) applied to an
already-decoded JSON object: the model name (empty when absent or not a
string), the estimated input token count — dispatching in order on a
`messages` array, a string `prompt`, an array `prompt`, a string `input`,
an array `input` — and the list of `type` strings of the `tools` array. -/
def ExtractRequestMetadata (request : List (String × Json)) : String × Int × List String :=
  (match jsonLookup request "model" with
   | some (.str s) => s
   | _ => "",
   (match jsonLookup request "messages" with
    | some (.arr msgs) => ((msgs.map messageTokens).sum : Nat)
    | _ =>
      match jsonLookup request "prompt" with
      | some (.str p) => (goLen p / 4 : Nat)
      | some (.arr ps) => ((ps.map stringElemTokens).sum : Nat)
      | _ =>
        match jsonLookup request "input" with
        | some (.str s) => (goLen s / 4 : Nat)
        | some (.arr xs) => ((xs.map stringElemTokens).sum : Nat)
        | _ => 0),
   match jsonLookup request "tools" with
   | some (.arr ts) => ts.filterMap fun t =>
       match t with
       | .obj tfields =>
         match jsonLookup tfields "type" with
         | some (.str s) => some s
         | _ => none
       | _ => none
   | _ => [])

/-- Token estimate following the words of the specification sentence under
test: the number of CHARACTERS divided by 4 over all text inputs, with the
same shape dispatch as the code.  The code instead divides Go `len()` — the
UTF-8 byte count — by 4; the two differ on non-ASCII text. -/
def claimCharTokens (request : List (String × Json)) : Int :=
  match jsonLookup request "messages" with
  | some (.arr msgs) =>
    ((msgs.map fun m => ((msgContent m).map fun c => c.length / 4).getD 0).sum : Nat)
  | _ =>
    match jsonLookup request "prompt" with
    | some (.str p) => (p.length / 4 : Nat)
    | some (.arr ps) =>
      ((ps.map fun v => ((strElem v).map fun s => s.length / 4).getD 0).sum : Nat)
    | _ =>
      match jsonLookup request "input" with
      | some (.str s) => (s.length / 4 : Nat)
      | some (.arr xs) =>
        ((xs.map fun v => ((strElem v).map fun s => s.length / 4).getD 0).sum : Nat)
      | _ => 0

/-- Model of Go `strings.HasPrefix` on character lists. -/
def isPre : List Char → List Char → Bool
  | [], _ => true
  | _ :: _, [] => false
  | p :: ps, c :: cs => p == c && isPre ps cs

/-- Model of Go `strings.TrimPrefix(s, pre)`: drop `pre` from the front when
it is there, else return `s` unchanged. -/
def goTrimPre (s pre : String) : String :=
  if isPre pre.data s.data then String.mk (s.data.drop pre.length) else s

/-- The digits of a decimal numeral: some value iff non-empty and all
digits. -/
def parseDigits (cs : List Char) : Option Nat :=
  if cs = [] then none
  else if cs.all Char.isDigit then
    some (cs.foldl (fun a c => a * 10 + (c.toNat - '0'.toNat)) 0)
  else none

/-- Model of Go `strconv.Atoi` on a 64-bit platform: an optional leading
sign, then one or more decimal digits, with the signed value required to
fit in int64; anything else is an error (none). -/
def goAtoi (s : String) : Option Int :=
  match s.data with
  | [] => none
  | c :: rest =>
    let signDigits : Int × List Char :=
      if c = '+' then (1, rest) else if c = '-' then (-1, rest) else (1, c :: rest)
    match parseDigits signDigits.2 with
    | none => none
    | some n =>
      if -9223372036854775808 ≤ signDigits.1 * (n : Int) ∧
          signDigits.1 * (n : Int) ≤ 9223372036854775807 then
        some (signDigits.1 * (n : Int))
      else none

/-- Model of the port extraction in `ServeHTTP` (part_002:46-49):
`strings.TrimPrefix(r.Host, "localhost:")`, then
`strings.TrimPrefix(.., "127.0.0.1:")`, then `strconv.Atoi`. -/
def extractPort (host : String) : Option Int :=
  goAtoi (goTrimPre (goTrimPre host "localhost:") "127.0.0.1:")

/-- The 400 body written when the port fails to parse (part_002:52). -/
def invalidPortBody : String := "\x7b\"error\":\"Invalid port\"\x7d"

/-- The 404 body written when no queue matches the port (part_002:60). -/
def noQueueBody : String := "\x7b\"error\":\"No queue configured for this port\"\x7d"

/-- How `ServeHTTP` routes a request after method gating (part_002:46-62). -/
inductive RouteResult where
  | badRequest (status : Nat) (body : String)
  | notFound (status : Nat) (body : String)
  | routed (queue : PriorityQueue)
  deriving Repr, DecidableEq

/-- Model of the routing segment of `ServeHTTP` (part_002:46-62): a host
whose extracted port fails `Atoi` is answered 400 with the invalid-port
body, without touching the queue set; a parsed port with no matching queue
gets 404; otherwise the request proceeds on the matching queue. -/
def routeRequest (qm : QueueManager) (host : String) : RouteResult :=
  match extractPort host with
  | none => .badRequest 400 invalidPortBody
  | some port =>
    match FindQueueByPort qm port with
    | none => .notFound 404 noQueueBody
    | some q => .routed q

/-- Concrete envelope used by the witnesses below. -/
def exEnv : Envelope :=
  { request := { method := "POST", path := "/v1/chat/completions", body := "" }
    responseWriter := 0
    done := 0
    startTime := 0
    model := "gpt-4"
    inputTokens := 1
    tools := []
    retryCount := 0
    preempted := false }

/-- Concrete rank-1 preemptive queue holding one pending envelope. -/
def exQ1 : PriorityQueue :=
  { port := 8080, priority := 1, preemptive := true, capacity := 100, requests := [exEnv] }

/-- Concrete manager owning just the rank-1 queue. -/
def exQM1 : QueueManager :=
  { queues := [exQ1], stopping := false }

/-- Second concrete envelope, pending on the rank-2 queue. -/
def exEnvB : Envelope :=
  { request := { method := "POST", path := "/v1/completions", body := "" }
    responseWriter := 1
    done := 1
    startTime := 5
    model := "gpt-3.5-turbo"
    inputTokens := 2
    tools := []
    retryCount := 0
    preempted := false }

/-- Concrete rank-2 non-preemptive queue holding one pending envelope. -/
def exQ2 : PriorityQueue :=
  { port := 8081, priority := 2, preemptive := false, capacity := 100, requests := [exEnvB] }

/-- Concrete rank-2 queue whose one-slot buffer is already full. -/
def exQFull : PriorityQueue :=
  { port := 8081, priority := 2, preemptive := false, capacity := 1, requests := [exEnvB] }

/-- Concrete decoded chat-completions body whose message content holds
non-ASCII text: 11 characters but 13 UTF-8 bytes. -/
def exChatBody : List (String × Json) :=
  [("model", Json.str "gpt-4"),
   ("messages", Json.arr
     [Json.obj [("role", Json.str "user"), ("content", Json.str "héllo wörld")]])]

/-- Concrete manager with one rank-1 queue bound to port 8080, as built by
NewQueueManager. -/
def exQM8080 : QueueManager :=
  NewQueueManager [{ port := 8080, priority := 1, preemptive := true }]

/-- C1: ShouldPreempt, while the manager is not shutting down, holds exactly
when a strictly higher-priority (lower rank number) preemptive queue has
pending work; once the shutdown flag is set it is false for every rank. -/
theorem shouldPreempt_characterisation (qm : QueueManager) (r : Int) :
    (qm.stopping = false →
      (ShouldPreempt qm r = true ↔
        ∃ q ∈ qm.queues, q.priority < r ∧ q.preemptive = true ∧ q.requests ≠ [])) ∧
    (qm.stopping = true → ShouldPreempt qm r = false) := by
  constructor
  · intro hstop
    simp only [ShouldPreempt, hstop, if_false, List.any_eq_true, Bool.and_eq_true,
      decide_eq_true_eq, Bool.ite_eq_true_distrib]
    constructor
    · rintro ⟨q, hq, ⟨⟨h1, h2⟩, h3⟩⟩
      exact ⟨q, hq, h1, h2, by
        intro hnil
        rw [hnil] at h3
        simp at h3⟩
    · rintro ⟨q, hq, h1, h2, h3⟩
      refine ⟨q, hq, ⟨⟨h1, h2⟩, ?_⟩⟩
      cases hreq : q.requests with
      | nil => exact absurd hreq h3
      | cons e es => simp [hreq]
  · intro hstop
    simp [ShouldPreempt, hstop]

/-- Witness for C1: a concrete two-queue manager where rank 2 is preempted by
a pending rank-1 preemptive request, and where the shutdown flag kills
preemption. -/
theorem shouldPreempt_characterisation_witness :
    ShouldPreempt exQM1 2 = true ∧ ShouldPreempt (setStopping exQM1) 2 = false := by
  constructor
  · exact ((shouldPreempt_characterisation exQM1 2).1 rfl).mpr
      ⟨exQ1, by simp [exQM1], by decide, by decide, by decide⟩
  · exact (shouldPreempt_characterisation (setStopping exQM1) 2).2 rfl

theorem allPending_cons (q : PriorityQueue) (rest : List PriorityQueue) :
    allPending (q :: rest) = q.requests ++ allPending rest := rfl

theorem allPending_append (l1 l2 : List PriorityQueue) :
    allPending (l1 ++ l2) = allPending l1 ++ allPending l2 := by
  induction l1 with
  | nil => simp [allPending]
  | cons q l ih => simp [allPending_cons, ih]

/-- A successful scheduler probe removes exactly the head of the pending
envelopes in scan order. -/
theorem processNextRequest_dispatch (qs : List PriorityQueue) :
    ∀ e q2 qs2, processNextRequest qs = (some (e, q2), qs2) →
      allPending qs = e :: allPending qs2 := by
  induction qs with
  | nil =>
    intro e q2 qs2 h
    simp [processNextRequest] at h
  | cons q rest ih =>
    intro e q2 qs2 h
    cases hreq : q.requests with
    | cons e0 es =>
      simp only [processNextRequest, hreq, Prod.mk.injEq, Option.some.injEq] at h
      obtain ⟨⟨he, hq2⟩, hqs2⟩ := h
      subst he
      subst hqs2
      simp [allPending_cons, hreq]
    | nil =>
      simp only [processNextRequest, hreq, Prod.mk.injEq] at h
      obtain ⟨h1, h2⟩ := h
      have hrest : processNextRequest rest = (some (e, q2), (processNextRequest rest).2) := by
        rw [← h1]
      have hall := ih e q2 (processNextRequest rest).2 hrest
      subst h2
      simp [allPending_cons, hreq, hall]

/-- A scheduler probe that finds nothing proves every queue empty and leaves
the state unchanged. -/
theorem processNextRequest_empty (qs : List PriorityQueue) :
    ∀ qs2, processNextRequest qs = (none, qs2) →
      allPending qs = [] ∧ qs2 = qs := by
  induction qs with
  | nil =>
    intro qs2 h
    simp only [processNextRequest, Prod.mk.injEq] at h
    exact ⟨rfl, h.2.symm⟩
  | cons q rest ih =>
    intro qs2 h
    cases hreq : q.requests with
    | cons e0 es =>
      simp only [processNextRequest, hreq, Prod.mk.injEq] at h
      exact absurd h.1 (by simp)
    | nil =>
      simp only [processNextRequest, hreq, Prod.mk.injEq] at h
      obtain ⟨h1, h2⟩ := h
      have hrest : processNextRequest rest = (none, (processNextRequest rest).2) := by
        rw [← h1]
      obtain ⟨ha, hb⟩ := ih (processNextRequest rest).2 hrest
      subst h2
      constructor
      · simp [allPending_cons, hreq, ha]
      · rw [hb]

/-- With no new arrivals, n scheduler iterations dispatch exactly the first n
pending envelopes in scan order. -/
theorem schedulerTrace_take (n : Nat) :
    ∀ qs : List PriorityQueue, schedulerTrace n qs = (allPending qs).take n := by
  induction n with
  | zero =>
    intro qs
    simp [schedulerTrace]
  | succ n ih =>
    intro qs
    rcases hp : processNextRequest qs with ⟨r, qs2⟩
    cases r with
    | some p =>
      obtain ⟨e, q2⟩ := p
      simp only [schedulerTrace, hp]
      rw [processNextRequest_dispatch qs e q2 qs2 hp, ih qs2, List.take_succ_cons]
    | none =>
      simp only [schedulerTrace, hp]
      obtain ⟨h1, _⟩ := processNextRequest_empty qs qs2 hp
      rw [h1]
      simp

/-- The probe dispatches the head of the first non-empty queue and pops only
that queue. -/
theorem processNextRequest_first (l : List PriorityQueue) :
    ∀ (q : PriorityQueue) (r : List PriorityQueue) (e : Envelope) (es : List Envelope),
      (∀ q2 ∈ l, q2.requests = []) → q.requests = e :: es →
      processNextRequest (l ++ q :: r) =
        (some (e, { q with requests := es }), l ++ { q with requests := es } :: r) := by
  induction l with
  | nil =>
    intro q r e es _ hq
    simp [processNextRequest, hq]
  | cons q0 l ih =>
    intro q r e es hl hq
    have h0 : q0.requests = [] := hl q0 (by simp)
    have hrec := ih q r e es (fun q2 hq2 => hl q2 (by simp [hq2])) hq
    simp only [List.cons_append, processNextRequest, h0, List.append_eq, hrec]

/-- C2: after the scheduler's initial sort the queue slice is in ascending
rank order; the dispatch trace with no new arrivals is exactly the pending
envelopes in scan order (so dispatch is the head of the first non-empty
queue, FIFO within a queue, and everything pending at a lower rank number
is dispatched before anything at a higher one); the probe pops exactly the
head of the first non-empty queue; and splitting the sorted slice around two
queues shows every envelope of the earlier (lower-rank) queue dispatched
before every envelope of the later one, each queue in FIFO order. -/
theorem scheduler_priority_order (qs : List PriorityQueue) (n : Nat) :
    (sortByPriority qs).Pairwise (fun a b => a.priority ≤ b.priority) ∧
    schedulerTrace n (sortByPriority qs) = (allPending (sortByPriority qs)).take n ∧
    (∀ (l : List PriorityQueue) (q : PriorityQueue) (r : List PriorityQueue)
        (e : Envelope) (es : List Envelope),
      sortByPriority qs = l ++ q :: r → (∀ q2 ∈ l, q2.requests = []) →
      q.requests = e :: es →
      processNextRequest (sortByPriority qs) =
        (some (e, { q with requests := es }), l ++ { q with requests := es } :: r)) ∧
    (∀ (l1 : List PriorityQueue) (qa : PriorityQueue) (mid : List PriorityQueue)
        (qb : PriorityQueue) (l2 : List PriorityQueue),
      sortByPriority qs = l1 ++ qa :: (mid ++ qb :: l2) →
      schedulerTrace (allPending (sortByPriority qs)).length (sortByPriority qs) =
        allPending l1 ++ qa.requests ++
          (allPending mid ++ (qb.requests ++ allPending l2))) := by
  refine ⟨?_, schedulerTrace_take n (sortByPriority qs), ?_, ?_⟩
  · haveI : IsTotal PriorityQueue (fun a b => a.priority ≤ b.priority) :=
      ⟨fun a b => Int.le_total a.priority b.priority⟩
    haveI : IsTrans PriorityQueue (fun a b => a.priority ≤ b.priority) :=
      ⟨fun _ _ _ hab hbc => le_trans hab hbc⟩
    exact List.sorted_insertionSort (fun a b => a.priority ≤ b.priority) qs
  · intro l q r e es hsort hl hq
    rw [hsort]
    exact processNextRequest_first l q r e es hl hq
  · intro l1 qa mid qb l2 hsort
    rw [schedulerTrace_take, List.take_length, hsort]
    simp [allPending_append, allPending_cons, List.append_assoc]

/-- Witness for C2: with a rank-2 queue listed before a rank-1 queue, the
sort puts rank 1 first and two scheduler iterations dispatch the rank-1
envelope, then the rank-2 envelope. -/
theorem scheduler_priority_order_witness :
    schedulerTrace (allPending (sortByPriority [exQ2, exQ1])).length
        (sortByPriority [exQ2, exQ1]) =
      allPending [] ++ exQ1.requests ++ (allPending [] ++ (exQ2.requests ++ allPending [])) :=
  (scheduler_priority_order [exQ2, exQ1] 0).2.2.2 [] exQ1 [] exQ2 [] (by decide)

theorem retryChain_startTime (n : Nat) :
    ∀ req : Envelope, (retryChain n req).startTime = req.startTime := by
  induction n with
  | zero => intro req; rfl
  | succ n ih =>
    intro req
    show (retryChain n (buildRetryEnvelope req)).startTime = req.startTime
    rw [ih (buildRetryEnvelope req)]
    rfl

theorem retryChain_retryCount (n : Nat) :
    ∀ req : Envelope, (retryChain n req).retryCount = req.retryCount + n := by
  induction n with
  | zero => intro req; rfl
  | succ n ih =>
    intro req
    show (retryChain n (buildRetryEnvelope req)).retryCount = req.retryCount + (n + 1)
    rw [ih (buildRetryEnvelope req)]
    show req.retryCount + 1 + n = req.retryCount + (n + 1)
    omega

/-- C3: a successful preempt-requeue at rank above 1 pushes onto the same
queue a retry envelope sharing the original's response writer, done
channel, start time, model, token count and tools, with `preempted` set,
`retryCount` exactly one higher, and a freshly cloned request; iterating
the cycle preserves `startTime` and adds exactly one retry per cycle, so
`retryCount` never decreases. -/
theorem preempt_requeue_retry_envelope (req : Envelope) (queue : PriorityQueue)
    (hrank : 1 < queue.priority) (hroom : queue.requests.length < queue.capacity) :
    (monitorPreemptStep req queue).requeued = some (buildRetryEnvelope req) ∧
    (monitorPreemptStep req queue).queue.port = queue.port ∧
    (monitorPreemptStep req queue).queue.priority = queue.priority ∧
    (monitorPreemptStep req queue).queue.requests = queue.requests ++ [buildRetryEnvelope req] ∧
    (monitorPreemptStep req queue).writes = [] ∧
    (monitorPreemptStep req queue).doneCloses = 0 ∧
    (buildRetryEnvelope req).responseWriter = req.responseWriter ∧
    (buildRetryEnvelope req).done = req.done ∧
    (buildRetryEnvelope req).startTime = req.startTime ∧
    (buildRetryEnvelope req).model = req.model ∧
    (buildRetryEnvelope req).inputTokens = req.inputTokens ∧
    (buildRetryEnvelope req).tools = req.tools ∧
    (buildRetryEnvelope req).preempted = true ∧
    (buildRetryEnvelope req).retryCount = req.retryCount + 1 ∧
    (buildRetryEnvelope req).request = cloneRequest req.request ∧
    (∀ n : Nat, (retryChain n req).startTime = req.startTime ∧
      (retryChain n req).retryCount = req.retryCount + n) := by
  refine ⟨?_, ?_, ?_, ?_, ?_, ?_, rfl, rfl, rfl, rfl, rfl, rfl, rfl, rfl, rfl, ?_⟩
  · simp [monitorPreemptStep, hrank, hroom]
  · simp [monitorPreemptStep, hrank, hroom]
  · simp [monitorPreemptStep, hrank, hroom]
  · simp [monitorPreemptStep, hrank, hroom]
  · simp [monitorPreemptStep, hrank, hroom]
  · simp [monitorPreemptStep, hrank, hroom]
  · exact fun n => ⟨retryChain_startTime n req, retryChain_retryCount n req⟩

/-- Witness for C3: preempting the concrete envelope on the rank-2 queue
requeues its retry envelope there. -/
theorem preempt_requeue_retry_envelope_witness :
    (monitorPreemptStep exEnv exQ2).requeued = some (buildRetryEnvelope exEnv) :=
  (preempt_requeue_retry_envelope exEnv exQ2 (by decide) (by decide)).1

/-- C4: when the preempt-requeue send finds the queue full, the Monitor
writes exactly one response — 503 with the overload body, to the preempted
envelope's own response writer — closes that envelope's done channel, and
leaves the queue untouched; moreover this full-buffer branch is the only
monitor path that closes done, and every monitor write targets the
preempted envelope's writer, so no other request is affected. -/
theorem preempt_requeue_overflow (req : Envelope) (queue : PriorityQueue)
    (hrank : 1 < queue.priority) (hfull : queue.capacity ≤ queue.requests.length) :
    (monitorPreemptStep req queue).writes =
      [{ writer := req.responseWriter, status := 503, body := overloadBody }] ∧
    (monitorPreemptStep req queue).doneCloses = 1 ∧
    (monitorPreemptStep req queue).queue = queue ∧
    (monitorPreemptStep req queue).requeued = none ∧
    (∀ (req2 : Envelope) (queue2 : PriorityQueue),
      0 < (monitorPreemptStep req2 queue2).doneCloses →
      1 < queue2.priority ∧ queue2.capacity ≤ queue2.requests.length ∧
      (monitorPreemptStep req2 queue2).writes =
        [{ writer := req2.responseWriter, status := 503, body := overloadBody }]) ∧
    (∀ (req2 : Envelope) (queue2 : PriorityQueue) (w : HttpWrite),
      w ∈ (monitorPreemptStep req2 queue2).writes → w.writer = req2.responseWriter) := by
  have hnl : ¬ queue.requests.length < queue.capacity := Nat.not_lt.mpr hfull
  refine ⟨?_, ?_, ?_, ?_, ?_, ?_⟩
  · simp [monitorPreemptStep, hrank, hnl]
  · simp [monitorPreemptStep, hrank, hnl]
  · simp [monitorPreemptStep, hrank, hnl]
  · simp [monitorPreemptStep, hrank, hnl]
  · intro req2 queue2 h
    by_cases h1 : 1 < queue2.priority
    · by_cases h2 : queue2.requests.length < queue2.capacity
      · simp [monitorPreemptStep, h1, h2] at h
      · exact ⟨h1, Nat.not_lt.mp h2, by simp [monitorPreemptStep, h1, h2]⟩
    · simp [monitorPreemptStep, h1] at h
  · intro req2 queue2 w hw
    by_cases h1 : 1 < queue2.priority
    · by_cases h2 : queue2.requests.length < queue2.capacity
      · simp [monitorPreemptStep, h1, h2] at hw
      · simp [monitorPreemptStep, h1, h2] at hw
        rw [hw]
    · simp [monitorPreemptStep, h1] at hw

/-- Witness for C4: preempting on the full one-slot rank-2 queue yields the
503 overload write and one done close. -/
theorem preempt_requeue_overflow_witness :
    (monitorPreemptStep exEnv exQFull).writes =
      [{ writer := exEnv.responseWriter, status := 503, body := overloadBody }] ∧
    (monitorPreemptStep exEnv exQFull).doneCloses = 1 :=
  ⟨(preempt_requeue_overflow exEnv exQFull (by decide) (by decide)).1,
   (preempt_requeue_overflow exEnv exQFull (by decide) (by decide)).2.1⟩

/-- C5: an attempt whose cancellation scope fired produces no response
write, no header copy, no metrics, and does not close done, whatever the
Forwarder returned — the requeue decision is left to the Monitor. -/
theorem cancelled_attempt_writes_nothing (req : Envelope) (result : ForwardOutcome) :
    processAttemptOutcome req true result =
      { writes := [], headersCopied := [], doneCloses := 0, metricsRecorded := false } := rfl

/-- C6: an uncancelled attempt whose Forwarder call failed writes exactly
one response — 502 with the formatted error body, to the envelope's
response writer — and closes done exactly once. -/
theorem forwarder_error_502 (req : Envelope) (msg : String) :
    processAttemptOutcome req false (ForwardOutcome.failure msg) =
      { writes := [{ writer := req.responseWriter, status := 502,
                     body := forwardErrorBody msg }]
        headersCopied := []
        doneCloses := 1
        metricsRecorded := false } := rfl

/-- C7: a preemption decision on a rank-1 queue cancels the attempt but
performs no requeue, no write and no done close; and a rank-1 request is
never preempted at all, since ShouldPreempt at rank 1 is false whenever
every configured rank is a positive integer. -/
theorem rank1_never_requeued :
    (∀ (req : Envelope) (queue : PriorityQueue), queue.priority = 1 →
      monitorPreemptStep req queue =
        { cancelCalled := true, req := req, queue := queue, requeued := none,
          writes := [], doneCloses := 0 }) ∧
    (∀ qm : QueueManager, (∀ q ∈ qm.queues, 1 ≤ q.priority) →
      ShouldPreempt qm 1 = false) := by
  constructor
  · intro req queue h
    have : ¬ (1 : Int) < queue.priority := by rw [h]; omega
    simp [monitorPreemptStep, this]
  · intro qm h
    by_cases hs : qm.stopping
    · simp [ShouldPreempt, hs]
    · simp only [ShouldPreempt, hs, Bool.false_eq_true, if_false, List.any_eq_false,
        Bool.and_eq_true, decide_eq_true_eq, not_and]
      intro q hq hlt
      have := h q hq
      omega

/-- Witness for C7: the rank-1 queue triggers neither requeue nor preemption
in the concrete one-queue manager. -/
theorem rank1_never_requeued_witness :
    monitorPreemptStep exEnvB exQ1 =
      { cancelCalled := true, req := exEnvB, queue := exQ1, requeued := none,
        writes := [], doneCloses := 0 } ∧
    ShouldPreempt exQM1 1 = false :=
  ⟨rank1_never_requeued.1 exEnvB exQ1 (by decide),
   rank1_never_requeued.2 exQM1 (by decide)⟩

/-- C8: queues built by NewQueueManager have pending capacity exactly 100
and start empty; an ingress arrival on a full queue is answered 429 with
the overload body and leaves the queue unchanged, and the handler does not
wait; otherwise the envelope is appended at the back and the handler blocks
on the done channel before returning. -/
theorem ingress_enqueue_bounded :
    (∀ (endpoints : List Endpoint) (q : PriorityQueue),
      q ∈ (NewQueueManager endpoints).queues → q.capacity = 100 ∧ q.requests = []) ∧
    (∀ (queue : PriorityQueue) (req : Envelope),
      queue.capacity ≤ queue.requests.length →
      ingressEnqueue queue req =
        IngressOutcome.rejected queue
          { writer := req.responseWriter, status := 429, body := overloadBody } ∧
      ingressWaitsForDone (ingressEnqueue queue req) = false) ∧
    (∀ (queue : PriorityQueue) (req : Envelope),
      queue.requests.length < queue.capacity →
      ingressEnqueue queue req =
        IngressOutcome.enqueued { queue with requests := queue.requests ++ [req] } ∧
      ingressWaitsForDone (ingressEnqueue queue req) = true) := by
  refine ⟨?_, ?_, ?_⟩
  · intro endpoints q hq
    simp only [NewQueueManager, List.mem_map] at hq
    obtain ⟨ep, _, rfl⟩ := hq
    exact ⟨rfl, rfl⟩
  · intro queue req h
    have hnl : ¬ queue.requests.length < queue.capacity := Nat.not_lt.mpr h
    constructor
    · simp [ingressEnqueue, hnl]
    · simp [ingressEnqueue, ingressWaitsForDone, hnl]
  · intro queue req h
    constructor
    · simp [ingressEnqueue, h]
    · simp [ingressEnqueue, ingressWaitsForDone, h]

/-- Witness for C8: the manager built over one endpoint has an empty
capacity-100 queue; the concrete full queue rejects with 429 and the
concrete roomy queue accepts and waits. -/
theorem ingress_enqueue_bounded_witness :
    ({ port := 8080, priority := 1, preemptive := true, capacity := 100,
       requests := [] } : PriorityQueue).capacity = 100 ∧
    ingressEnqueue exQFull exEnv =
      IngressOutcome.rejected exQFull
        { writer := exEnv.responseWriter, status := 429, body := overloadBody } ∧
    ingressEnqueue exQ2 exEnv =
      IngressOutcome.enqueued { exQ2 with requests := exQ2.requests ++ [exEnv] } :=
  ⟨(ingress_enqueue_bounded.1 [{ port := 8080, priority := 1, preemptive := true }]
      { port := 8080, priority := 1, preemptive := true, capacity := 100, requests := [] }
      (by simp [NewQueueManager])).1,
   (ingress_enqueue_bounded.2.1 exQFull exEnv (by decide)).1,
   (ingress_enqueue_bounded.2.2 exQ2 exEnv (by decide)).1⟩

theorem messageTokens_eq (m : Json) :
    messageTokens m = ((msgContent m).map fun c => goLen c / 4).getD 0 := by
  cases m with
  | obj mfields =>
    cases h : jsonLookup mfields "content" with
    | none => simp [messageTokens, msgContent, h]
    | some v => cases v <;> simp [messageTokens, msgContent, h]
  | str s => rfl
  | num n => rfl
  | bool b => rfl
  | null => rfl
  | arr xs => rfl

theorem map_messageTokens_sum (msgs : List Json) :
    (msgs.map messageTokens).sum =
      ((msgs.filterMap msgContent).map fun c => goLen c / 4).sum := by
  induction msgs with
  | nil => rfl
  | cons m ms ih =>
    rw [List.map_cons, List.sum_cons, messageTokens_eq m, ih]
    cases h : msgContent m with
    | none => simp [List.filterMap_cons, h]
    | some c => simp [List.filterMap_cons, h]

theorem stringElemTokens_eq (v : Json) :
    stringElemTokens v = ((strElem v).map fun s => goLen s / 4).getD 0 := by
  cases v <;> rfl

theorem map_stringElemTokens_sum (xs : List Json) :
    (xs.map stringElemTokens).sum =
      ((xs.filterMap strElem).map fun s => goLen s / 4).sum := by
  induction xs with
  | nil => rfl
  | cons v vs ih =>
    rw [List.map_cons, List.sum_cons, stringElemTokens_eq v, ih]
    cases h : strElem v with
    | none => simp [List.filterMap_cons, h]
    | some s => simp [List.filterMap_cons, h]

theorem extract_tokens_no_messages (request : List (String × Json))
    (h : ∀ msgs, jsonLookup request "messages" ≠ some (Json.arr msgs)) :
    (ExtractRequestMetadata request).2.1 =
      (match jsonLookup request "prompt" with
       | some (.str p) => ((goLen p / 4 : Nat) : Int)
       | some (.arr ps) => (((ps.map stringElemTokens).sum : Nat) : Int)
       | _ =>
         match jsonLookup request "input" with
         | some (.str s) => ((goLen s / 4 : Nat) : Int)
         | some (.arr xs) => (((xs.map stringElemTokens).sum : Nat) : Int)
         | _ => 0) := by
  cases hm : jsonLookup request "messages" with
  | none => simp [ExtractRequestMetadata, hm]
  | some v =>
    cases v <;> first
      | exact absurd hm (h _)
      | simp [ExtractRequestMetadata, hm]

theorem extract_tokens_no_prompt (request : List (String × Json))
    (hm : ∀ msgs, jsonLookup request "messages" ≠ some (Json.arr msgs))
    (hp1 : ∀ p, jsonLookup request "prompt" ≠ some (Json.str p))
    (hp2 : ∀ ps, jsonLookup request "prompt" ≠ some (Json.arr ps)) :
    (ExtractRequestMetadata request).2.1 =
      (match jsonLookup request "input" with
       | some (.str s) => ((goLen s / 4 : Nat) : Int)
       | some (.arr xs) => (((xs.map stringElemTokens).sum : Nat) : Int)
       | _ => 0) := by
  rw [extract_tokens_no_messages request hm]
  cases hp : jsonLookup request "prompt" with
  | none => simp
  | some v =>
    cases v <;> first
      | exact absurd hp (hp1 _)
      | exact absurd hp (hp2 _)
      | simp [hp]

/-- C9 counterexample: on a chat body whose content is the 11-character,
13-byte string of the concrete example, the code computes 13/4 = 3 input
tokens while the claim's characters/4 gives 11/4 = 2 — the code divides the
UTF-8 byte count, not the character count, by 4. -/
theorem extract_metadata_chars_counterexample :
    (ExtractRequestMetadata exChatBody).2.1 = 3 ∧
    claimCharTokens exChatBody = 2 ∧
    ¬ (ExtractRequestMetadata exChatBody).2.1 = claimCharTokens exChatBody :=
  ⟨by decide, by decide, by decide⟩

/-- C9 as amended: for every decoded body, the returned model is the
body's `model` string, and the input token estimate is the UTF-8 byte
count divided by four, summed per text input: per message content for a
chat body, over the prompt string or the string elements of an array
prompt, and over the input string or the string elements of an array
input, each shape tried in the code's order. -/
theorem extract_metadata_bytes (request : List (String × Json)) :
    (∀ m, jsonLookup request "model" = some (Json.str m) →
      (ExtractRequestMetadata request).1 = m) ∧
    (∀ msgs, jsonLookup request "messages" = some (Json.arr msgs) →
      (ExtractRequestMetadata request).2.1 =
        ((((msgs.filterMap msgContent).map fun c => goLen c / 4).sum : Nat) : Int)) ∧
    (∀ p, (∀ msgs, jsonLookup request "messages" ≠ some (Json.arr msgs)) →
      jsonLookup request "prompt" = some (Json.str p) →
      (ExtractRequestMetadata request).2.1 = ((goLen p / 4 : Nat) : Int)) ∧
    (∀ ps, (∀ msgs, jsonLookup request "messages" ≠ some (Json.arr msgs)) →
      jsonLookup request "prompt" = some (Json.arr ps) →
      (ExtractRequestMetadata request).2.1 =
        ((((ps.filterMap strElem).map fun s => goLen s / 4).sum : Nat) : Int)) ∧
    (∀ s, (∀ msgs, jsonLookup request "messages" ≠ some (Json.arr msgs)) →
      (∀ p, jsonLookup request "prompt" ≠ some (Json.str p)) →
      (∀ ps, jsonLookup request "prompt" ≠ some (Json.arr ps)) →
      jsonLookup request "input" = some (Json.str s) →
      (ExtractRequestMetadata request).2.1 = ((goLen s / 4 : Nat) : Int)) ∧
    (∀ xs, (∀ msgs, jsonLookup request "messages" ≠ some (Json.arr msgs)) →
      (∀ p, jsonLookup request "prompt" ≠ some (Json.str p)) →
      (∀ ps, jsonLookup request "prompt" ≠ some (Json.arr ps)) →
      jsonLookup request "input" = some (Json.arr xs) →
      (ExtractRequestMetadata request).2.1 =
        ((((xs.filterMap strElem).map fun s => goLen s / 4).sum : Nat) : Int)) := by
  refine ⟨?_, ?_, ?_, ?_, ?_, ?_⟩
  · intro m h
    simp [ExtractRequestMetadata, h]
  · intro msgs h
    simp only [ExtractRequestMetadata, h]
    rw [map_messageTokens_sum]
  · intro p hm hp
    rw [extract_tokens_no_messages request hm, hp]
  · intro ps hm hp
    rw [extract_tokens_no_messages request hm, hp]
    show (((ps.map stringElemTokens).sum : Nat) : Int) = _
    rw [map_stringElemTokens_sum]
  · intro s hm hp1 hp2 hi
    rw [extract_tokens_no_prompt request hm hp1 hp2, hi]
  · intro xs hm hp1 hp2 hi
    rw [extract_tokens_no_prompt request hm hp1 hp2, hi]
    show (((xs.map stringElemTokens).sum : Nat) : Int) = _
    rw [map_stringElemTokens_sum]

/-- Witness for the amended C9: the concrete chat body yields model gpt-4
and the per-message byte-count estimate. -/
theorem extract_metadata_bytes_witness :
    (ExtractRequestMetadata exChatBody).1 = "gpt-4" ∧
    (ExtractRequestMetadata exChatBody).2.1 =
      (((([Json.obj [("role", Json.str "user"), ("content", Json.str "héllo wörld")]]
          ).filterMap msgContent).map fun c => goLen c / 4).sum : Nat) :=
  ⟨(extract_metadata_bytes exChatBody).1 "gpt-4" rfl,
   (extract_metadata_bytes exChatBody).2.1
     [Json.obj [("role", Json.str "user"), ("content", Json.str "héllo wörld")]] rfl⟩

/-- C10 counterexample: the bare-number host 8080 starts with neither
literal prefix, yet the handler parses it, consults the queue set, and
routes to the queue bound to port 8080 instead of replying 400. -/
theorem invalid_host_counterexample :
    isPre "localhost:".data "8080".data = false ∧
    isPre "127.0.0.1:".data "8080".data = false ∧
    routeRequest exQM8080 "8080" =
      RouteResult.routed
        { port := 8080, priority := 1, preemptive := true, capacity := 100, requests := [] } ∧
    ¬ routeRequest exQM8080 "8080" = RouteResult.badRequest 400 invalidPortBody :=
  ⟨by decide, by decide, by decide, by decide⟩

/-- C10 as amended: the handler replies 400 with the invalid-port body
exactly when the host, after stripping one leading localhost: and then one
leading 127.0.0.1: occurrence, fails signed decimal integer parsing — in
particular for example.com:8080 — and on a parse success it consults the
queue set instead, routing or replying 404. -/
theorem route_400_iff_parse_failure (qm : QueueManager) (host : String) :
    (routeRequest qm host = RouteResult.badRequest 400 invalidPortBody ↔
      extractPort host = none) ∧
    (∀ p q, extractPort host = some p → FindQueueByPort qm p = some q →
      routeRequest qm host = RouteResult.routed q) ∧
    (∀ p, extractPort host = some p → FindQueueByPort qm p = none →
      routeRequest qm host = RouteResult.notFound 404 noQueueBody) ∧
    extractPort "example.com:8080" = none := by
  refine ⟨?_, ?_, ?_, by decide⟩
  · cases h : extractPort host with
    | none => simp [routeRequest, h]
    | some p =>
      simp only [routeRequest, h]
      cases hf : FindQueueByPort qm p with
      | none => simp [hf]
      | some q => simp [hf]
  · intro p q hp hq
    simp [routeRequest, hp, hq]
  · intro p hp hq
    simp [routeRequest, hp, hq]

/-- Witness for the amended C10: the dotted host of the example is answered
400 with the invalid-port body. -/
theorem route_400_iff_parse_failure_witness :
    routeRequest exQM8080 "example.com:8080" =
      RouteResult.badRequest 400 invalidPortBody :=
  (route_400_iff_parse_failure exQM8080 "example.com:8080").1.mpr (by decide)

end Proxy
